import Mathlib

/-!
Shallow embedding of `ToggleTaskbarAutohide.cpp` (Toggle-Taskbar-Autohide).

The program toggles the Windows taskbar auto-hide flag: a single byte at
offset 0x08 inside the 64-byte `Settings` REG_BINARY value stored under
`HKCU\...\Explorer\StuckRects3` (falling back to the legacy `StuckRects2`
key), then restarts `explorer.exe` while preserving the open Explorer
folder windows and the foreground application.

The embedding below models, from the source:
  * the registry state visible to the program (the two candidate keys,
    each with its `Settings` value and whether `RegSetValueExW` succeeds),
  * `ToggleTaskbarSetting` (source lines 347-374),
  * `GetCurrentTaskbarSetting` (source lines 306-345),
  * `KillExplorerProcess` (source lines 376-402): the set of terminated
    process ids computed from a toolhelp snapshot,
  * `GetOpenExplorerWindows` (source lines 417-506): the Z-order walk and
    the `std::map`-keyed capture of visible `CabinetWClass` windows,
  * `RestoreExplorerWindows` (source lines 587-692): the reverse-order
    replay and its effect on the desktop Z-order,
  * the tray-mode watchdog protocol of `ExecuteToggleAction` (lines
    119-141) and `WatchdogThreadProc` (lines 100-109) as a transition
    system.

OS calls (registry API, window enumeration, process snapshot, shell
automation path resolution) are modelled as explicit state or as oracle
parameters; fixed `Sleep` delays have no observable effect in the model
and are dropped.
-/

namespace ToggleTaskbarAutohide

/-- `#define TASKBAR_ALWAYS_VISIBLE 0x02` (source line 47). -/
def TASKBAR_ALWAYS_VISIBLE : Nat := 0x02

/-- `#define TASKBAR_AUTOHIDE 0x03` (source line 48). -/
def TASKBAR_AUTOHIDE : Nat := 0x03

/-- Both readers use a fixed stack buffer `BYTE settings[64]` (source lines
334 and 357); bytes are modelled as `Nat` (values below 256 in any real
blob, though nothing in the code checks that). -/
def SETTINGS_BUFFER_SIZE : Nat := 64

/-- One registry key as the program sees it: the `Settings` REG_BINARY
value (`none` when `RegQueryValueExW` fails because the value is absent),
and whether `RegSetValueExW` on it succeeds. -/
structure RegKey where
  settings : Option (List Nat)
  setOk : Bool
deriving Repr, DecidableEq

/-- The registry state visible to the program: the `StuckRects3` key and
the legacy `StuckRects2` key under HKCU. `none` means `RegOpenKeyExW`
fails for that key (key absent or access denied). The code opens with
`KEY_READ` in `GetCurrentTaskbarSetting` and `KEY_READ | KEY_WRITE` in
`ToggleTaskbarSetting`; the model uses one openability per key. -/
structure RegState where
  stuckRects3 : Option RegKey
  stuckRects2 : Option RegKey
deriving Repr, DecidableEq

/-- The open sequence shared by both functions (source lines 325-332 and
348-355): try `StuckRects3`; only if that open fails, try `StuckRects2`.
Returns the opened key together with `true` when it was `StuckRects3`. -/
def openedKey (s : RegState) : Option (Bool × RegKey) :=
  match s.stuckRects3 with
  | some k => some (true, k)
  | none =>
    match s.stuckRects2 with
    | some k => some (false, k)
    | none => none

/-- Write back an opened key (identified by which name it was opened
under) into the registry state. -/
def updateKey (s : RegState) (fromStuckRects3 : Bool) (k : RegKey) : RegState :=
  if fromStuckRects3 then { s with stuckRects3 := some k }
  else { s with stuckRects2 := some k }

/-- `RegQueryValueExW(hKey, L"Settings", ...)` into a buffer of
`bufSize` bytes: fails when the value is absent, and fails with
ERROR_MORE_DATA when the stored blob is larger than the buffer; otherwise
succeeds and yields the stored blob (its actual length is returned in
`settingsSize`). -/
def regQueryValueSettings (k : RegKey) (bufSize : Nat) : Option (List Nat) :=
  match k.settings with
  | none => none
  | some blob => if blob.length ≤ bufSize then some blob else none

/-- Source line 366:
`settings[0x08] = (settings[0x08] == TASKBAR_ALWAYS_VISIBLE) ? TASKBAR_AUTOHIDE : TASKBAR_ALWAYS_VISIBLE;` -/
def toggleByte (b : Nat) : Nat :=
  if b = TASKBAR_ALWAYS_VISIBLE then TASKBAR_AUTOHIDE else TASKBAR_ALWAYS_VISIBLE

/-- The blob passed to `RegSetValueExW` at source line 367: the buffer
after `settings[0x08]` was overwritten, truncated to the `settingsSize`
returned by the read. When the blob is shorter than 9 bytes, buffer cell 8
lies beyond the written span, so `List.set` being a no-op there matches
the code (the toggled value is computed from an uninitialized buffer byte
but never written back; the `getD` default is therefore immaterial). -/
def writtenBlob (blob : List Nat) : List Nat :=
  blob.set 8 (toggleByte (blob.getD 8 0))

/-- The distinct exit points of `ToggleTaskbarSetting` (the C++ returns a
bare `bool`; the spec's error taxonomy maps `openFailed` to
ConfigUnavailable, `readFailed` to MalformedConfig, `writeFailed` to
WriteDenied, and only `ok` to `true`). -/
inductive ToggleOutcome
  | ok
  | writeFailed
  | readFailed
  | openFailed
deriving Repr, DecidableEq

/-- `ToggleTaskbarSetting` (source lines 347-374): open `StuckRects3`
then fall back to `StuckRects2` (lines 348-355, return `false` if neither
opens); read `Settings` into a 64-byte buffer (lines 357-364, return
`false` on failure); toggle byte 0x08 and write the buffer back at the
read's size (lines 366-367); broadcast `WM_SETTINGCHANGE` (lines 370-371,
no registry effect, not modelled); return whether the write succeeded.
The result pairs the exit taken with the registry state afterwards. -/
def ToggleTaskbarSetting (s : RegState) : ToggleOutcome × RegState :=
  match openedKey s with
  | none => (ToggleOutcome.openFailed, s)
  | some (fromSR3, k) =>
    match regQueryValueSettings k SETTINGS_BUFFER_SIZE with
    | none => (ToggleOutcome.readFailed, s)
    | some blob =>
      if k.setOk then
        (ToggleOutcome.ok,
          updateKey s fromSR3 { k with settings := some (writtenBlob blob) })
      else (ToggleOutcome.writeFailed, s)

/-- The `Settings` blob stored in the key the toggler operates on (the
key `openedKey` selects). -/
def storedBlob (s : RegState) : Option (List Nat) :=
  match openedKey s with
  | none => none
  | some (_, k) => k.settings

/-- `GetCurrentTaskbarSetting` (source lines 306-345): same key fallback
(read-only open); returns `TASKBAR_ALWAYS_VISIBLE` when neither key opens
or the value read fails, else `settings[0x08]` from the buffer. `junk`
stands for the uninitialized stack byte `settings[8]`, read only when the
stored blob is shorter than 9 bytes. -/
def GetCurrentTaskbarSetting (junk : Nat) (s : RegState) : Nat :=
  match openedKey s with
  | none => TASKBAR_ALWAYS_VISIBLE
  | some (_, k) =>
    match regQueryValueSettings k SETTINGS_BUFFER_SIZE with
    | none => TASKBAR_ALWAYS_VISIBLE
    | some blob => blob.getD 8 junk

/-- One `PROCESSENTRY32` of the toolhelp snapshot: process id and
executable file name, the two fields `KillExplorerProcess` inspects. -/
structure PROCESSENTRY32 where
  th32ProcessID : Nat
  szExeFile : String
deriving Repr, DecidableEq

/-- `KillExplorerProcess` (source lines 376-402), reduced to its
observable effect on processes: after politely posting `WM_CLOSE` to every
`CabinetWClass` window and sleeping 150 ms (lines 377-384, window-side
effects not modelled here), it walks the whole snapshot and calls
`TerminateProcess` on every entry whose `szExeFile` compares equal to
`"explorer.exe"` and whose id differs from `GetCurrentProcessId()`,
provided `OpenProcess(PROCESS_TERMINATE, ...)` yields a handle (modelled
by the oracle `canOpen`). The result is the list of terminated ids. -/
def KillExplorerProcess (ourProcessId : Nat) (canOpen : Nat → Bool)
    (snapshot : List PROCESSENTRY32) : List Nat :=
  (snapshot.filter fun p =>
      decide (p.szExeFile = "explorer.exe") &&
      decide (p.th32ProcessID ≠ ourProcessId) &&
      canOpen p.th32ProcessID).map
    (fun p => p.th32ProcessID)

/-! ### Explorer window capture and restore -/

/-- Windows `RECT` (left, top, right, bottom). -/
structure RECT where
  left : Int
  top : Int
  right : Int
  bottom : Int
deriving Repr, DecidableEq

/-- `SW_NORMAL` show command. -/
def SW_NORMAL : Nat := 1

/-- `SW_MAXIMIZE` show command (equal to `SW_SHOWMAXIMIZED`). -/
def SW_MAXIMIZE : Nat := 3

/-- `SW_MINIMIZE` show command (note: distinct from `SW_SHOWMINIMIZED = 2`,
which is what `GetWindowPlacement` reports for a minimized window). -/
def SW_MINIMIZE : Nat := 6

/-- The `ExplorerWindow` struct (source lines 54-61) as captured:
folder path, normal-position rectangle, `placement.showCmd`, original
window handle, focused child handle, and Z-order index at capture time.
Handles are modelled as `Nat`. -/
structure ExplorerWindow where
  path : String
  position : RECT
  showCmd : Nat
  hwnd : Nat
  focusedHwnd : Option Nat
  zOrder : Nat
deriving Repr, DecidableEq

/-- A top-level window as the capture walk sees it: handle, visibility,
window class, the folder path the shell-automation chain of source lines
444-497 resolves for it (`none` when any step of that chain fails), the
placement show command and normal-position rectangle. -/
structure SysWindow where
  hwnd : Nat
  visible : Bool
  className : String
  folderPath : Option String
  showCmd : Nat
  rcNormalPosition : RECT
deriving Repr, DecidableEq

/-- Loop body of the capture walk (source lines 425-498) for the window
at Z-order index `z`: a visible `CabinetWClass` window whose folder path
resolves is recorded (keyed by `z` in `windowsByZOrder`); anything else is
skipped. `foreground` is `GetForegroundWindow()` and `childFocusIn h` is
the focused child inside window `h`, if any (lines 438-441). -/
def captureOne (foreground : Option Nat) (childFocusIn : Nat → Option Nat)
    (z : Nat) (w : SysWindow) : Option (Nat × ExplorerWindow) :=
  if w.visible = true ∧ w.className = "CabinetWClass" then
    match w.folderPath with
    | none => none
    | some p =>
      some (z,
        { path := p
          position := w.rcNormalPosition
          showCmd := w.showCmd
          hwnd := w.hwnd
          focusedHwnd :=
            if foreground = some w.hwnd then some w.hwnd else childFocusIn w.hwnd
          zOrder := z })
  else none

/-- Insertion into `std::map<DWORD, ExplorerWindow>` ordered by key
(`windowsByZOrder[zOrder] = window`, source line 485): the association
list is kept sorted by key, and an existing key is overwritten. -/
def mapInsert (m : List (Nat × ExplorerWindow)) (k : Nat) (v : ExplorerWindow) :
    List (Nat × ExplorerWindow) :=
  match m with
  | [] => [(k, v)]
  | (q, u) :: rest =>
    if k < q then (k, v) :: (q, u) :: rest
    else if k = q then (k, v) :: rest
    else (q, u) :: mapInsert rest k v

/-- `GetOpenExplorerWindows` (source lines 417-506): walk the top-level
windows front-to-back from `GetTopWindow` via `GetNextWindow(GW_HWNDNEXT)`,
incrementing `zOrder` at every step; record qualifying windows in the
key-ordered map; finally emit the map's values in ascending key order
(lines 504-505), i.e. front-most captured window first. The desktop is
the front-to-back list of top-level windows. -/
def GetOpenExplorerWindows (foreground : Option Nat)
    (childFocusIn : Nat → Option Nat) (desktop : List SysWindow) :
    List ExplorerWindow :=
  let windowsByZOrder :=
    desktop.enum.foldl
      (fun m (zw : Nat × SysWindow) =>
        match captureOne foreground childFocusIn zw.1 zw.2 with
        | none => m
        | some (z, win) => mapInsert m z win)
      []
  windowsByZOrder.map (fun p => p.2)

/-- `SetWindowPos(newHwnd, insertAfter, ... SWP_NOMOVE|SWP_NOSIZE|...)`
acting on the desktop Z-order (front-most first): `HWND_BOTTOM` moves the
window to the back, `HWND_TOP` to the front. -/
def setWindowPosZ (zs : List Nat) (h : Nat) (toBottom : Bool) : List Nat :=
  if toBottom then (zs.erase h) ++ [h] else h :: zs.erase h

/-- One iteration of the restore loop (source lines 589-690) as it
affects the desktop Z-order `zs`. A window with an empty captured path is
skipped (line 591). Otherwise `ShellExecuteW` relaunches the folder, the
code sleeps 500 ms and searches all windows for a visible `CabinetWClass`
window whose resolved folder path matches case-insensitively (lines
592-663); `resolve` is that whole launch-wait-search step, `none` when no
window is found within the wait. A found window is shown, moved, possibly
maximized or minimized, then re-stacked with `SetWindowPos` whose
`insertAfter` is `HWND_BOTTOM` when the captured `showCmd` equals
`SW_MINIMIZE` and `HWND_TOP` otherwise (lines 665-689). The local
`openedPaths` map is written but never read, so it has no effect. -/
def restoreOne (resolve : String → Option Nat) (zs : List Nat)
    (w : ExplorerWindow) : List Nat :=
  if w.path = "" then zs
  else
    match resolve w.path with
    | none => zs
    | some newHwnd => setWindowPosZ zs newHwnd (w.showCmd = SW_MINIMIZE)

/-- `RestoreExplorerWindows` (source lines 587-692): iterate the captured
list in reverse (`rbegin` to `rend`), applying `restoreOne` to the desktop
Z-order. -/
def RestoreExplorerWindows (resolve : String → Option Nat)
    (windows : List ExplorerWindow) (zs : List Nat) : List Nat :=
  windows.reverse.foldl (restoreOne resolve) zs

/-! ### Tray-mode watchdog protocol -/

/-- The mutable globals relevant to the watchdog (source lines 73-76),
plus `liveWatchdogs`, the number of watchdog threads spawned and not yet
finished (a ghost counter the C++ state does not store explicitly).
`watchdogThread` is whether `g_watchdogThread != NULL`. -/
structure TrayState where
  trayMode : Bool
  watchdogThread : Bool
  isRestartingExplorer : Bool
  liveWatchdogs : Nat
deriving Repr, DecidableEq

/-- The events of the watchdog protocol: a toggle activation runs
`ExecuteToggleAction`; `watchdogFinish` is a spawned `WatchdogThreadProc`
running to completion; `timerFired` is the `WM_TIMER` (id 1234) handler
(source lines 759-769). -/
inductive TrayEvent
  | toggleAction
  | watchdogFinish
  | timerFired
deriving Repr, DecidableEq

/-- State effect of each event.

`toggleAction` (source lines 125-128): set `g_isRestartingExplorer`;
then `if (g_trayMode && g_watchdogThread == NULL)` create the watchdog
thread and store its handle.

`watchdogFinish` (source lines 100-109): the thread sleeps 2000 ms, posts
`WM_TASKBARCREATED`, clears `g_isRestartingExplorer` and nulls
`g_watchdogThread`, then exits.

`timerFired` (source lines 760-766): re-create the tray icon and clear
`g_isRestartingExplorer`; the watchdog handle is untouched. -/
def trayStep (s : TrayState) (e : TrayEvent) : TrayState :=
  match e with
  | TrayEvent.toggleAction =>
    let s := { s with isRestartingExplorer := true }
    if s.trayMode = true ∧ s.watchdogThread = false then
      { s with watchdogThread := true, liveWatchdogs := s.liveWatchdogs + 1 }
    else s
  | TrayEvent.watchdogFinish =>
    { s with
        isRestartingExplorer := false
        watchdogThread := false
        liveWatchdogs := s.liveWatchdogs - 1 }
  | TrayEvent.timerFired => { s with isRestartingExplorer := false }

/-- Process start: no watchdog exists, nothing is restarting. -/
def trayInit (trayMode : Bool) : TrayState :=
  { trayMode := trayMode
    watchdogThread := false
    isRestartingExplorer := false
    liveWatchdogs := 0 }

/-- Reachable states of the watchdog protocol. `watchdogFinish` is only
enabled while a spawned watchdog is still live. -/
inductive TrayReachable : TrayState → Prop
  | init (tm : Bool) : TrayReachable (trayInit tm)
  | toggle {s : TrayState} : TrayReachable s →
      TrayReachable (trayStep s TrayEvent.toggleAction)
  | finish {s : TrayState} : TrayReachable s → 0 < s.liveWatchdogs →
      TrayReachable (trayStep s TrayEvent.watchdogFinish)
  | timer {s : TrayState} : TrayReachable s →
      TrayReachable (trayStep s TrayEvent.timerFired)

/-! ### Concrete fixtures used by counterexamples and witnesses -/

/-- A 64-byte blob whose mode byte is `TASKBAR_ALWAYS_VISIBLE`. -/
def visibleBlob : List Nat := (List.replicate 64 0).set 8 TASKBAR_ALWAYS_VISIBLE

/-- Registry state holding `visibleBlob` under a writable `StuckRects3`. -/
def visibleState : RegState :=
  { stuckRects3 := some { settings := some visibleBlob, setOk := true }
    stuckRects2 := none }

/-- A 64-byte blob whose mode byte is the unrecognized value 5. -/
def unrecognizedBlob : List Nat := (List.replicate 64 0).set 8 5

/-- Registry state holding `unrecognizedBlob` under a writable `StuckRects3`. -/
def unrecognizedState : RegState :=
  { stuckRects3 := some { settings := some unrecognizedBlob, setOk := true }
    stuckRects2 := none }

/-- A 64-byte blob whose mode byte is the unrecognized value 0. -/
def zeroModeBlob : List Nat := List.replicate 64 0

/-- Registry state holding `zeroModeBlob` under a writable `StuckRects3`. -/
def zeroModeState : RegState :=
  { stuckRects3 := some { settings := some zeroModeBlob, setOk := true }
    stuckRects2 := none }

/-- A stored blob of only 10 bytes (malformed by the spec's standard),
with mode byte `TASKBAR_ALWAYS_VISIBLE` at offset 8. -/
def shortBlob : List Nat := (List.replicate 10 0).set 8 TASKBAR_ALWAYS_VISIBLE

/-- Registry state holding `shortBlob` under a writable `StuckRects3`. -/
def shortBlobState : RegState :=
  { stuckRects3 := some { settings := some shortBlob, setOk := true }
    stuckRects2 := none }

/-- A stored blob of 65 bytes, larger than the 64-byte read buffer. -/
def oversizedBlob : List Nat := List.replicate 65 0

/-- Registry state holding `oversizedBlob` under a writable `StuckRects3`. -/
def oversizedState : RegState :=
  { stuckRects3 := some { settings := some oversizedBlob, setOk := true }
    stuckRects2 := none }

/-- A degenerate rectangle for window fixtures. -/
def demoRect : RECT := { left := 0, top := 0, right := 0, bottom := 0 }

/-- A resolution oracle mapping the three demo paths to fresh handles. -/
def demoResolve : String → Option Nat := fun p =>
  if p = "A" then some 11
  else if p = "B" then some 12
  else if p = "C" then some 13
  else none

/-- A captured window at path `p` with normal placement. -/
def demoWin (p : String) : ExplorerWindow :=
  { path := p
    position := demoRect
    showCmd := SW_NORMAL
    hwnd := 0
    focusedHwnd := none
    zOrder := 0 }

/-! ### Helper lemmas about the registry embedding -/

theorem openedKey_updateKey (s : RegState) (fromSR3 : Bool) (k k9 : RegKey)
    (hopen : openedKey s = some (fromSR3, k)) :
    openedKey (updateKey s fromSR3 k9) = some (fromSR3, k9) := by
  cases s with
  | mk sr3 sr2 =>
    cases sr3 with
    | some k0 =>
      simp [openedKey] at hopen
      obtain ⟨h1, h2⟩ := hopen
      subst h1
      simp [updateKey, openedKey]
    | none =>
      cases sr2 with
      | some k0 =>
        simp [openedKey] at hopen
        obtain ⟨h1, h2⟩ := hopen
        subst h1
        simp [updateKey, openedKey]
      | none => simp [openedKey] at hopen

theorem storedBlob_updateKey (s : RegState) (fromSR3 : Bool) (k k9 : RegKey)
    (hopen : openedKey s = some (fromSR3, k)) :
    storedBlob (updateKey s fromSR3 k9) = k9.settings := by
  rw [storedBlob, openedKey_updateKey s fromSR3 k k9 hopen]

/-- On the success path (a key opened, the blob fits the 64-byte buffer,
the write succeeds), `ToggleTaskbarSetting` stores `writtenBlob blob` in
the key it opened. -/
theorem ToggleTaskbarSetting_eq (s : RegState) (fromSR3 : Bool) (k : RegKey)
    (blob : List Nat) (hopen : openedKey s = some (fromSR3, k))
    (hset : k.settings = some blob) (hlen : blob.length ≤ 64)
    (hwr : k.setOk = true) :
    ToggleTaskbarSetting s =
      (ToggleOutcome.ok,
        updateKey s fromSR3 { k with settings := some (writtenBlob blob) }) := by
  unfold ToggleTaskbarSetting
  rw [hopen]
  simp [regQueryValueSettings, hset, SETTINGS_BUFFER_SIZE, hlen, hwr]

theorem writtenBlob_getElem8 (blob : List Nat) (h : 8 < blob.length) :
    (writtenBlob blob)[8]? = some (toggleByte (blob.getD 8 0)) := by
  unfold writtenBlob
  exact List.getElem?_set_eq_of_lt _ h

theorem writtenBlob_getElem_ne (blob : List Nat) (i : Nat) (h : i ≠ 8) :
    (writtenBlob blob)[i]? = blob[i]? := by
  unfold writtenBlob
  exact List.getElem?_set_ne (by omega)

theorem writtenBlob_length (blob : List Nat) :
    (writtenBlob blob).length = blob.length := by
  unfold writtenBlob
  exact List.length_set blob 8 _

theorem getD_of_getElem8 (blob : List Nat) (b : Nat) (hb : blob[8]? = some b) :
    blob.getD 8 0 = b := by
  rw [List.getD_eq_getElem?_getD, hb]
  rfl

theorem getElem8_eq_getD (blob : List Nat) (d : Nat) (h : 8 < blob.length) :
    blob[8]? = some (blob.getD 8 d) := by
  rw [List.getD_eq_getElem?_getD, List.getElem?_eq_getElem h]
  rfl

/-! ### Claim C1 -/

/-- C1: for every 64-byte configuration blob stored under the opened key,
one successful call to `ToggleTaskbarSetting` maps the visibility-mode
byte at offset 0x08 as follows: `TASKBAR_ALWAYS_VISIBLE` (0x02) becomes
`TASKBAR_AUTOHIDE` (0x03), 0x03 becomes 0x02, and any other byte value
becomes 0x02. -/
theorem toggleTaskbarSetting_mode_byte_map (s : RegState) (fromSR3 : Bool)
    (k : RegKey) (blob : List Nat) (b : Nat)
    (hopen : openedKey s = some (fromSR3, k))
    (hset : k.settings = some blob)
    (hlen : blob.length = 64)
    (hwr : k.setOk = true)
    (hb : blob[8]? = some b) :
    (ToggleTaskbarSetting s).1 = ToggleOutcome.ok ∧
    ∃ blob2, storedBlob (ToggleTaskbarSetting s).2 = some blob2 ∧
      blob2.length = 64 ∧
      blob2[8]? = some
        (if b = TASKBAR_ALWAYS_VISIBLE then TASKBAR_AUTOHIDE
         else if b = TASKBAR_AUTOHIDE then TASKBAR_ALWAYS_VISIBLE
         else TASKBAR_ALWAYS_VISIBLE) := by
  rw [ToggleTaskbarSetting_eq s fromSR3 k blob hopen hset (le_of_eq hlen) hwr]
  refine ⟨rfl, writtenBlob blob, ?_, ?_, ?_⟩
  · exact storedBlob_updateKey s fromSR3 k _ hopen
  · rw [writtenBlob_length, hlen]
  · rw [writtenBlob_getElem8 blob (by omega), getD_of_getElem8 blob b hb]
    unfold toggleByte
    by_cases h2 : b = TASKBAR_ALWAYS_VISIBLE
    · simp [h2]
    · simp [h2]

/-- C1 witness: toggling a concrete 64-byte blob whose mode byte is 0x02
succeeds and stores a 64-byte blob whose mode byte is the mapped value. -/
theorem toggleTaskbarSetting_mode_byte_map_witness :
    (ToggleTaskbarSetting visibleState).1 = ToggleOutcome.ok ∧
    ∃ blob2, storedBlob (ToggleTaskbarSetting visibleState).2 = some blob2 ∧
      blob2.length = 64 ∧
      blob2[8]? = some
        (if TASKBAR_ALWAYS_VISIBLE = TASKBAR_ALWAYS_VISIBLE then TASKBAR_AUTOHIDE
         else if TASKBAR_ALWAYS_VISIBLE = TASKBAR_AUTOHIDE then TASKBAR_ALWAYS_VISIBLE
         else TASKBAR_ALWAYS_VISIBLE) :=
  toggleTaskbarSetting_mode_byte_map visibleState true
    { settings := some visibleBlob, setOk := true } visibleBlob
    TASKBAR_ALWAYS_VISIBLE rfl rfl (by decide) rfl (by decide)

/-! ### Claim C2 -/

/-- C2 counterexample: the claim quantifies over every blob, but for the
64-byte blob whose mode byte is the unrecognized value 5, two toggles end
with mode byte 0x03, not 5, so the mode byte does not return to its
original value. -/
theorem double_toggle_not_roundtrip_on_unrecognized :
    unrecognizedBlob[8]? = some 5 ∧
    (storedBlob (ToggleTaskbarSetting
        (ToggleTaskbarSetting unrecognizedState).2).2).bind (fun b2 => b2[8]?) =
      some TASKBAR_AUTOHIDE ∧
    TASKBAR_AUTOHIDE ≠ 5 := by decide

/-- C2 amended: for every 64-byte blob, applying the toggle twice keeps
every byte other than the mode byte bit-identical; the mode byte at
offset 0x08 returns to its original value provided it was one of the two
documented mode values 0x02 or 0x03. -/
theorem double_toggle_roundtrip_on_valid_modes (s : RegState) (fromSR3 : Bool)
    (k : RegKey) (blob : List Nat) (b : Nat)
    (hopen : openedKey s = some (fromSR3, k))
    (hset : k.settings = some blob)
    (hlen : blob.length = 64)
    (hwr : k.setOk = true)
    (hb : blob[8]? = some b) :
    ∃ blob2,
      storedBlob (ToggleTaskbarSetting (ToggleTaskbarSetting s).2).2 = some blob2 ∧
      blob2.length = 64 ∧
      (∀ i, i ≠ 8 → blob2[i]? = blob[i]?) ∧
      ((b = TASKBAR_ALWAYS_VISIBLE ∨ b = TASKBAR_AUTOHIDE) →
        blob2[8]? = blob[8]?) := by
  rw [ToggleTaskbarSetting_eq s fromSR3 k blob hopen hset (le_of_eq hlen) hwr]
  have hopen1 : openedKey
      (updateKey s fromSR3 { k with settings := some (writtenBlob blob) }) =
      some (fromSR3, { k with settings := some (writtenBlob blob) }) :=
    openedKey_updateKey s fromSR3 k _ hopen
  have hlen1 : (writtenBlob blob).length ≤ 64 := by
    rw [writtenBlob_length, hlen]
  rw [ToggleTaskbarSetting_eq _ fromSR3 _ (writtenBlob blob) hopen1 rfl hlen1 hwr]
  refine ⟨writtenBlob (writtenBlob blob), ?_, ?_, ?_, ?_⟩
  · exact storedBlob_updateKey _ fromSR3 _ _ hopen1
  · rw [writtenBlob_length, writtenBlob_length, hlen]
  · intro i hi
    rw [writtenBlob_getElem_ne _ i hi, writtenBlob_getElem_ne _ i hi]
  · intro hvalid
    have h8 : 8 < blob.length := by omega
    have h8w : 8 < (writtenBlob blob).length := by rw [writtenBlob_length]; omega
    rw [writtenBlob_getElem8 _ h8w,
      getD_of_getElem8 _ _ (writtenBlob_getElem8 blob h8),
      getD_of_getElem8 blob b hb, hb]
    rcases hvalid with h | h <;> subst h <;> rfl

/-- C2 witness: double toggle of a concrete 64-byte blob with mode byte
0x02 preserves all other bytes and restores the mode byte. -/
theorem double_toggle_roundtrip_on_valid_modes_witness :
    ∃ blob2,
      storedBlob (ToggleTaskbarSetting
        (ToggleTaskbarSetting visibleState).2).2 = some blob2 ∧
      blob2.length = 64 ∧
      (∀ i, i ≠ 8 → blob2[i]? = visibleBlob[i]?) ∧
      ((TASKBAR_ALWAYS_VISIBLE = TASKBAR_ALWAYS_VISIBLE ∨
          TASKBAR_ALWAYS_VISIBLE = TASKBAR_AUTOHIDE) →
        blob2[8]? = visibleBlob[8]?) :=
  double_toggle_roundtrip_on_valid_modes visibleState true
    { settings := some visibleBlob, setOk := true } visibleBlob
    TASKBAR_ALWAYS_VISIBLE rfl rfl (by decide) rfl (by decide)

/-! ### Claim C3 -/

/-- C3 counterexample: the claim says an unrecognized mode byte is
treated as `AlwaysVisible`, so the byte would be written as the AutoHide
value 0x03; but on the 64-byte blob whose mode byte is 0, the toggle
writes 0x02 (`TASKBAR_ALWAYS_VISIBLE`), not 0x03. -/
theorem unrecognized_mode_not_written_as_autohide :
    zeroModeBlob[8]? = some 0 ∧
    (storedBlob (ToggleTaskbarSetting zeroModeState).2).bind (fun b2 => b2[8]?) =
      some TASKBAR_ALWAYS_VISIBLE ∧
    TASKBAR_ALWAYS_VISIBLE ≠ TASKBAR_AUTOHIDE := by decide

/-- C3 amended: for every 64-byte blob whose mode byte is neither 0x02
nor 0x03, the toggle treats the observed value as `AutoHide` when
computing the toggle target, so the byte is written as the AlwaysVisible
value 0x02; every other byte of the blob is preserved unmodified. -/
theorem unrecognized_mode_written_as_always_visible (s : RegState)
    (fromSR3 : Bool) (k : RegKey) (blob : List Nat) (b : Nat)
    (hopen : openedKey s = some (fromSR3, k))
    (hset : k.settings = some blob)
    (hlen : blob.length = 64)
    (hwr : k.setOk = true)
    (hb : blob[8]? = some b)
    (hb2 : b ≠ TASKBAR_ALWAYS_VISIBLE)
    (hb3 : b ≠ TASKBAR_AUTOHIDE) :
    (ToggleTaskbarSetting s).1 = ToggleOutcome.ok ∧
    ∃ blob2, storedBlob (ToggleTaskbarSetting s).2 = some blob2 ∧
      blob2[8]? = some TASKBAR_ALWAYS_VISIBLE ∧
      (∀ i, i ≠ 8 → blob2[i]? = blob[i]?) := by
  rw [ToggleTaskbarSetting_eq s fromSR3 k blob hopen hset (le_of_eq hlen) hwr]
  refine ⟨rfl, writtenBlob blob, storedBlob_updateKey s fromSR3 k _ hopen, ?_, ?_⟩
  · rw [writtenBlob_getElem8 blob (by omega), getD_of_getElem8 blob b hb]
    unfold toggleByte
    simp [hb2]
  · intro i hi
    exact writtenBlob_getElem_ne blob i hi

/-- C3 witness: toggling the concrete 64-byte blob whose mode byte is
the unrecognized value 0 writes 0x02 and preserves all other bytes. -/
theorem unrecognized_mode_written_as_always_visible_witness :
    (ToggleTaskbarSetting zeroModeState).1 = ToggleOutcome.ok ∧
    ∃ blob2, storedBlob (ToggleTaskbarSetting zeroModeState).2 = some blob2 ∧
      blob2[8]? = some TASKBAR_ALWAYS_VISIBLE ∧
      (∀ i, i ≠ 8 → blob2[i]? = zeroModeBlob[i]?) :=
  unrecognized_mode_written_as_always_visible zeroModeState true
    { settings := some zeroModeBlob, setOk := true } zeroModeBlob 0
    rfl rfl (by decide) rfl (by decide) (by decide) (by decide)

/-! ### Claim C4 -/

/-- C4 counterexample: the claim says every stored blob whose size is not
64 bytes makes the toggle fail with no write; but for a stored blob of 10
bytes with mode byte 0x02, the toggle succeeds and rewrites the value
with the mode byte flipped. -/
theorem undersized_blob_toggle_succeeds :
    shortBlob.length = 10 ∧
    (ToggleTaskbarSetting shortBlobState).1 = ToggleOutcome.ok ∧
    storedBlob (ToggleTaskbarSetting shortBlobState).2 =
      some ((List.replicate 10 0).set 8 TASKBAR_AUTOHIDE) ∧
    storedBlob (ToggleTaskbarSetting shortBlobState).2 ≠ some shortBlob := by
  decide

/-- C4 amended: only a stored blob larger than the 64-byte buffer makes
the toggle fail (at the read, the exit the spec calls MalformedConfig)
with the on-disk value untouched; a blob of 64 bytes or fewer is not
rejected: the read succeeds and, when the write succeeds, the toggle
writes the blob back at its own length. -/
theorem blob_size_handling (s : RegState) (fromSR3 : Bool) (k : RegKey)
    (blob : List Nat)
    (hopen : openedKey s = some (fromSR3, k))
    (hset : k.settings = some blob) :
    (64 < blob.length →
      ToggleTaskbarSetting s = (ToggleOutcome.readFailed, s)) ∧
    (blob.length ≤ 64 → k.setOk = true →
      (ToggleTaskbarSetting s).1 = ToggleOutcome.ok ∧
      storedBlob (ToggleTaskbarSetting s).2 = some (writtenBlob blob) ∧
      (writtenBlob blob).length = blob.length) := by
  constructor
  · intro hbig
    have hnle : ¬ blob.length ≤ 64 := by omega
    unfold ToggleTaskbarSetting
    rw [hopen]
    simp [regQueryValueSettings, hset, SETTINGS_BUFFER_SIZE, hnle]
  · intro hle hwr
    rw [ToggleTaskbarSetting_eq s fromSR3 k blob hopen hset hle hwr]
    exact ⟨rfl, storedBlob_updateKey s fromSR3 k _ hopen, writtenBlob_length blob⟩

/-- C4 witness: a concrete 65-byte stored blob makes the toggle take the
read-failure exit and leave the registry state unchanged. -/
theorem blob_size_handling_witness :
    ToggleTaskbarSetting oversizedState = (ToggleOutcome.readFailed, oversizedState) :=
  (blob_size_handling oversizedState true
    { settings := some oversizedBlob, setOk := true } oversizedBlob
    rfl rfl).1 (by decide)

/-! ### Claim C5 -/

/-- C5: the toggle first attempts `StuckRects3`; only if that open fails
does it attempt the legacy `StuckRects2`; and it takes the open-failure
exit (the spec's ConfigUnavailable), leaving the registry state
untouched, exactly when neither key can be opened. -/
theorem toggle_key_fallback_order (s : RegState) :
    ((ToggleTaskbarSetting s).1 = ToggleOutcome.openFailed ↔
      s.stuckRects3 = none ∧ s.stuckRects2 = none) ∧
    (s.stuckRects3 = none ∧ s.stuckRects2 = none →
      (ToggleTaskbarSetting s).2 = s) ∧
    (∀ k, s.stuckRects3 = some k → openedKey s = some (true, k)) ∧
    (∀ k, s.stuckRects3 = none → s.stuckRects2 = some k →
      openedKey s = some (false, k)) ∧
    (∀ k, s.stuckRects3 = some k →
      (ToggleTaskbarSetting s).2.stuckRects2 = s.stuckRects2) := by
  obtain ⟨sr3, sr2⟩ := s
  cases sr3 with
  | some k =>
    refine ⟨?_, ?_, ?_, ?_, ?_⟩
    · simp only [ToggleTaskbarSetting, openedKey]
      constructor
      · intro h
        exfalso
        revert h
        cases regQueryValueSettings k SETTINGS_BUFFER_SIZE <;>
          simp <;> split <;> simp
      · rintro ⟨h, -⟩
        exact absurd h (by simp)
    · rintro ⟨h, -⟩
      exact absurd h (by simp)
    · intro k9 hk
      injection hk with hk
      subst hk
      rfl
    · intro k9 hk _
      simp at hk
    · intro k9 hk
      simp only [ToggleTaskbarSetting, openedKey]
      cases regQueryValueSettings k SETTINGS_BUFFER_SIZE <;>
        simp [updateKey] <;> split <;> simp [updateKey]
  | none =>
    cases sr2 with
    | some k =>
      refine ⟨?_, ?_, ?_, ?_, ?_⟩
      · simp only [ToggleTaskbarSetting, openedKey]
        constructor
        · intro h
          exfalso
          revert h
          cases regQueryValueSettings k SETTINGS_BUFFER_SIZE <;>
            simp <;> split <;> simp
        · rintro ⟨-, h⟩
          exact absurd h (by simp)
      · rintro ⟨-, h⟩
        exact absurd h (by simp)
      · intro k9 hk
        simp at hk
      · intro k9 _ hk
        injection hk with hk
        subst hk
        rfl
      · intro k9 hk
        simp at hk
    | none =>
      refine ⟨?_, ?_, ?_, ?_, ?_⟩
      · simp [ToggleTaskbarSetting, openedKey]
      · intro _
        simp [ToggleTaskbarSetting, openedKey]
      · intro k9 hk
        simp at hk
      · intro k9 _ hk
        simp at hk
      · intro k9 hk
        simp at hk

/-- C5 witness: with both keys unopenable the toggler takes the
open-failure exit, and with `StuckRects3` openable the legacy key is the
fallback never consulted. -/
theorem toggle_key_fallback_order_witness :
    (ToggleTaskbarSetting { stuckRects3 := none, stuckRects2 := none }).1 =
      ToggleOutcome.openFailed ∧
    openedKey visibleState = some (true, { settings := some visibleBlob, setOk := true }) :=
  ⟨(toggle_key_fallback_order { stuckRects3 := none, stuckRects2 := none }).1.mpr
      ⟨rfl, rfl⟩,
    (toggle_key_fallback_order visibleState).2.2.1
      { settings := some visibleBlob, setOk := true } rfl⟩

/-! ### Claim C6 -/

/-- C6: three folder windows at paths A, B, C, captured with Z-order C
(front) over B over A, all normally placed; when every path resolves to a
new window during restore, replaying in reverse capture order with each
found window re-stacked to the top leaves the window reopened for C's
path as the final top window. -/
theorem restore_zorder_three_windows
    (pA pB pC : String) (posA posB posC : RECT) (idA idB idC : Nat)
    (foreground : Option Nat) (childFocusIn : Nat → Option Nat)
    (resolve : String → Option Nat) (newA newB newC : Nat) (zs : List Nat)
    (hpA : pA ≠ "") (hpB : pB ≠ "") (hpC : pC ≠ "")
    (hrA : resolve pA = some newA) (hrB : resolve pB = some newB)
    (hrC : resolve pC = some newC) :
    (RestoreExplorerWindows resolve
      (GetOpenExplorerWindows foreground childFocusIn
        [{ hwnd := idC, visible := true, className := "CabinetWClass",
           folderPath := some pC, showCmd := SW_NORMAL, rcNormalPosition := posC },
         { hwnd := idB, visible := true, className := "CabinetWClass",
           folderPath := some pB, showCmd := SW_NORMAL, rcNormalPosition := posB },
         { hwnd := idA, visible := true, className := "CabinetWClass",
           folderPath := some pA, showCmd := SW_NORMAL, rcNormalPosition := posA }])
      zs).head? = some newC := by
  simp [GetOpenExplorerWindows, captureOne, mapInsert, RestoreExplorerWindows,
    restoreOne, setWindowPosZ, SW_NORMAL, SW_MINIMIZE, hpA, hpB, hpC, hrA, hrB,
    hrC, List.enum]

/-- C6 witness: concrete desktop of three folder windows at paths A, B,
C with C in front; restoration ends with C's new window on top. -/
theorem restore_zorder_three_windows_witness :
    (RestoreExplorerWindows demoResolve
      (GetOpenExplorerWindows none (fun _ => none)
        [{ hwnd := 3, visible := true, className := "CabinetWClass",
           folderPath := some "C", showCmd := SW_NORMAL, rcNormalPosition := demoRect },
         { hwnd := 2, visible := true, className := "CabinetWClass",
           folderPath := some "B", showCmd := SW_NORMAL, rcNormalPosition := demoRect },
         { hwnd := 1, visible := true, className := "CabinetWClass",
           folderPath := some "A", showCmd := SW_NORMAL, rcNormalPosition := demoRect }])
      []).head? = some 13 :=
  restore_zorder_three_windows "A" "B" "C" demoRect demoRect demoRect 1 2 3
    none (fun _ => none) demoResolve 11 12 13 []
    (by decide) (by decide) (by decide) rfl rfl rfl

/-! ### Claim C7 -/

/-- The restore loop body leaves the desktop untouched for a window it
cannot relocate: an empty captured path is skipped at the loop's guard,
and an unresolved path falls through the window search with no effect. -/
theorem restoreOne_skip (resolve : String → Option Nat) (zs : List Nat)
    (w : ExplorerWindow) (h : w.path = "" ∨ resolve w.path = none) :
    restoreOne resolve zs w = zs := by
  unfold restoreOne
  rcases h with h | h
  · simp [h]
  · by_cases hp : w.path = ""
    · simp [hp]
    · simp [hp, h]

/-- C7: if one captured window cannot be relocated during restore (its
path is empty or the launch-wait-search step finds no window), that
window is skipped with no error, and the restoration of every other
window in the list proceeds exactly as if the missing window were not in
the list. -/
theorem restore_skips_unresolved_window (resolve : String → Option Nat)
    (ws1 ws2 : List ExplorerWindow) (w : ExplorerWindow) (zs : List Nat)
    (h : w.path = "" ∨ resolve w.path = none) :
    RestoreExplorerWindows resolve (ws1 ++ w :: ws2) zs =
      RestoreExplorerWindows resolve (ws1 ++ ws2) zs := by
  unfold RestoreExplorerWindows
  simp only [List.reverse_append, List.reverse_cons, List.foldl_append,
    List.append_assoc, List.singleton_append, List.foldl_cons]
  rw [restoreOne_skip resolve _ w h]

/-- C7 witness: dropping a concrete window whose path resolves to no new
window leaves the restoration of the surrounding windows unchanged. -/
theorem restore_skips_unresolved_window_witness :
    RestoreExplorerWindows demoResolve
      ([demoWin "A"] ++ demoWin "missing" :: [demoWin "B"]) [] =
      RestoreExplorerWindows demoResolve ([demoWin "A"] ++ [demoWin "B"]) [] :=
  restore_skips_unresolved_window demoResolve [demoWin "A"] [demoWin "B"]
    (demoWin "missing") [] (Or.inr (by decide))

/-! ### Claim C8 -/

/-- C8: the shell-kill step terminates exactly the snapshot entries whose
executable name is `explorer.exe`, whose id differs from the caller's own
process id, and which `OpenProcess` can open; in particular the caller's
own process id is never in the terminated set. -/
theorem killExplorerProcess_spares_self (ourPid : Nat) (canOpen : Nat → Bool)
    (snapshot : List PROCESSENTRY32) :
    ourPid ∉ KillExplorerProcess ourPid canOpen snapshot ∧
    (∀ pid, pid ∈ KillExplorerProcess ourPid canOpen snapshot ↔
      ∃ p ∈ snapshot, p.th32ProcessID = pid ∧ p.szExeFile = "explorer.exe" ∧
        pid ≠ ourPid ∧ canOpen pid = true) := by
  have hmem : ∀ pid, pid ∈ KillExplorerProcess ourPid canOpen snapshot ↔
      ∃ p ∈ snapshot, p.th32ProcessID = pid ∧ p.szExeFile = "explorer.exe" ∧
        pid ≠ ourPid ∧ canOpen pid = true := by
    intro pid
    simp only [KillExplorerProcess, List.mem_map, List.mem_filter,
      Bool.and_eq_true, decide_eq_true_eq]
    constructor
    · rintro ⟨p, ⟨hp, ⟨hexe, hne⟩, hopen⟩, rfl⟩
      exact ⟨p, hp, rfl, hexe, hne, hopen⟩
    · rintro ⟨p, hp, rfl, hexe, hne, hopen⟩
      exact ⟨p, ⟨hp, ⟨hexe, hne⟩, hopen⟩, rfl⟩
  refine ⟨?_, hmem⟩
  intro h
  obtain ⟨p, -, -, -, hne, -⟩ := (hmem ourPid).1 h
  exact hne rfl

/-! ### Claim C9 -/

/-- Inductive invariant of the watchdog protocol: the number of live
watchdog threads is 1 when `g_watchdogThread` holds a handle and 0 when
it is NULL. -/
theorem trayReachable_live_eq {s : TrayState} (h : TrayReachable s) :
    s.liveWatchdogs = if s.watchdogThread then 1 else 0 := by
  induction h with
  | init tm => simp [trayInit]
  | @toggle s hs ih =>
    by_cases hc : s.trayMode = true ∧ s.watchdogThread = false
    · obtain ⟨h1, h2⟩ := hc
      rw [h2] at ih
      simp [trayStep, h1, h2, ih]
    · simp only [trayStep, if_neg hc]
      simpa using ih
  | @finish s hs hpos ih =>
    have hwt : s.watchdogThread = true := by
      by_contra hw
      rw [Bool.not_eq_true] at hw
      rw [hw] at ih
      simp at ih
      omega
    rw [hwt] at ih
    simp at ih
    simp [trayStep, ih]
  | @timer s hs ih => simpa [trayStep] using ih

/-- C9: in every reachable state of the tray-mode protocol at most one
watchdog task is pending, and while one is pending (the stored handle is
non-NULL) a fresh toggle leaves the number of live watchdogs unchanged:
the guarded creation never spawns a second concurrent watchdog. -/
theorem watchdog_at_most_one_pending {s : TrayState} (h : TrayReachable s) :
    s.liveWatchdogs ≤ 1 ∧
    (s.watchdogThread = true →
      (trayStep s TrayEvent.toggleAction).liveWatchdogs = s.liveWatchdogs) := by
  constructor
  · rw [trayReachable_live_eq h]
    split <;> omega
  · intro hwt
    have hc : ¬ (s.trayMode = true ∧ s.watchdogThread = false) := by
      rintro ⟨-, h2⟩
      rw [hwt] at h2
      exact Bool.noConfusion h2
    simp [trayStep, if_neg hc]

/-- C9 witness: after the first toggle in tray mode one watchdog is live,
within the bound. -/
theorem watchdog_at_most_one_pending_witness :
    (trayStep (trayInit true) TrayEvent.toggleAction).liveWatchdogs ≤ 1 :=
  (watchdog_at_most_one_pending
    (TrayReachable.toggle (TrayReachable.init true))).1

/-! ### Claim C10 -/

/-- C10: `GetCurrentTaskbarSetting` is total and reports no error: when
neither key opens, or the value read fails (absent value or blob larger
than the buffer), it returns `TASKBAR_ALWAYS_VISIBLE` as the default; and
when the read succeeds on a blob with at least 9 bytes it returns the raw
byte at offset 0x08, whatever its value. -/
theorem getCurrentTaskbarSetting_total_default (junk : Nat) (s : RegState) :
    (openedKey s = none →
      GetCurrentTaskbarSetting junk s = TASKBAR_ALWAYS_VISIBLE) ∧
    (∀ fromSR3 k, openedKey s = some (fromSR3, k) → k.settings = none →
      GetCurrentTaskbarSetting junk s = TASKBAR_ALWAYS_VISIBLE) ∧
    (∀ fromSR3 k blob, openedKey s = some (fromSR3, k) → k.settings = some blob →
      64 < blob.length →
      GetCurrentTaskbarSetting junk s = TASKBAR_ALWAYS_VISIBLE) ∧
    (∀ fromSR3 k blob, openedKey s = some (fromSR3, k) → k.settings = some blob →
      blob.length ≤ 64 → 8 < blob.length →
      blob[8]? = some (GetCurrentTaskbarSetting junk s)) := by
  refine ⟨?_, ?_, ?_, ?_⟩
  · intro h
    unfold GetCurrentTaskbarSetting
    rw [h]
  · intro fromSR3 k hopen hnone
    unfold GetCurrentTaskbarSetting
    rw [hopen]
    simp [regQueryValueSettings, hnone]
  · intro fromSR3 k blob hopen hset hbig
    have hnle : ¬ blob.length ≤ 64 := by omega
    unfold GetCurrentTaskbarSetting
    rw [hopen]
    simp [regQueryValueSettings, hset, SETTINGS_BUFFER_SIZE, hnle]
  · intro fromSR3 k blob hopen hset hle h8
    unfold GetCurrentTaskbarSetting
    rw [hopen]
    simp only [regQueryValueSettings, hset, SETTINGS_BUFFER_SIZE, hle, if_pos]
    exact getElem8_eq_getD blob junk h8

/-- C10 witness: with neither key openable the reader returns the
default 0x02, and on the concrete 64-byte blob with an unrecognized mode
byte 5 it returns that raw byte. -/
theorem getCurrentTaskbarSetting_total_default_witness :
    GetCurrentTaskbarSetting 0 { stuckRects3 := none, stuckRects2 := none } =
      TASKBAR_ALWAYS_VISIBLE ∧
    unrecognizedBlob[8]? =
      some (GetCurrentTaskbarSetting 0 unrecognizedState) :=
  ⟨(getCurrentTaskbarSetting_total_default 0
      { stuckRects3 := none, stuckRects2 := none }).1 rfl,
    (getCurrentTaskbarSetting_total_default 0 unrecognizedState).2.2.2 true
      { settings := some unrecognizedBlob, setOk := true } unrecognizedBlob
      rfl rfl (by decide) (by decide)⟩

end ToggleTaskbarAutohide
